import Mathlib

/-!
Verification of the stateful logic of the Streamlit portfolio repository:
the session-scoped analytics counters (`src/analytics.py`), the rate-limited
email dispatch (`src/config.py`) and the chatbot lookup (`src/chat.py`),
shallowly embedded in Lean.

A Python `dict` with string keys is embedded as an insertion-ordered
association list with unique keys; Streamlit's `st.session_state` slots are
explicit record fields, with `Option` marking slots that may be absent.
-/

namespace Portfolio

/-- The characters Python's `str.strip()` removes from both ends. -/
def pyIsSpace (c : Char) : Bool :=
  c = ' ' || c = '\t' || c = '\n' || c = '\x0d' || c = '\x0b' || c = '\x0c'

/-- Python `s.strip()`: drop whitespace from both ends. -/
def pyStrip (s : String) : String :=
  ⟨((s.data.dropWhile pyIsSpace).reverse.dropWhile pyIsSpace).reverse⟩

/-- Python `s.lower()` (ASCII case mapping; every string compared here is
ASCII). -/
def pyLower (s : String) : String :=
  ⟨s.data.map Char.toLower⟩

/-- Python `int(s)` restricted to the non-negative decimal literals that can
reach it here (`"587"` and whatever `EMAIL_PORT` holds); any other string
raises `ValueError`, modelled as `none`. -/
def pyInt? (s : String) : Option Int :=
  let chars := s.data
  if chars ≠ [] && chars.all Char.isDigit then
    some (Int.ofNat (chars.foldl (fun acc c => acc * 10 + (c.toNat - 48)) 0))
  else none

/-- Python `d[k]` / `k in d` probe: first (unique) binding of `key`, if any. -/
def pyGet? {α : Type} : List (String × α) → String → Option α
  | [], _ => none
  | (k, v) :: rest, key => if k = key then some v else pyGet? rest key

/-- Python `d[k] = v`: overwrite in place when the key exists, append otherwise
(CPython dicts preserve insertion order). -/
def pySet {α : Type} : List (String × α) → String → α → List (String × α)
  | [], key, v => [(key, v)]
  | (k, w) :: rest, key, v =>
    if k = key then (k, v) :: rest else (k, w) :: pySet rest key v

/-- Python `d.get(k, 0)` on an integer-valued dict. -/
def pyGetD (m : List (String × Nat)) (key : String) : Nat :=
  (pyGet? m key).getD 0

/-- Python `sum(d.values())`. -/
def sumValues (m : List (String × Nat)) : Nat :=
  m.foldl (fun acc kv => acc + kv.2) 0

/-! ## Analytics (`src/analytics.py`) -/

/-- The `st.session_state.analytics` dict, lines 24-29 of `analytics.py`. -/
structure AnalyticsState where
  project_views : List (String × Nat)
  contact_submissions : Nat
  last_interaction : Option String
  total_visits : Nat
  deriving DecidableEq, Repr

/-- The fresh analytics dict created on first access (lines 24-29). -/
def initialAnalytics : AnalyticsState :=
  { project_views := [], contact_submissions := 0
    last_interaction := none, total_visits := 0 }

/-- One user session: the lazily created analytics slot of
`st.session_state`, plus the memo table of the `lru_cache`-decorated
`_get_cached_project_views` (`maxsize=100`). -/
structure SessionState where
  analytics : Option AnalyticsState
  cache : List (String × Nat)
  deriving DecidableEq, Repr

/-- Embedding of `Analytics._get_analytics_state` (lines 15-30): initialize the session
slot if absent and return its contents. -/
def getAnalyticsState (s : Option AnalyticsState) : AnalyticsState :=
  s.getD initialAnalytics

/-- A fresh session: no analytics dict yet, empty memo table. -/
def freshSession : SessionState :=
  { analytics := none, cache := [] }

/-- The authoritative `project_views` map as seen through
`_get_analytics_state`. -/
def projectViewsOf (s : SessionState) : List (String × Nat) :=
  (getAnalyticsState s.analytics).project_views

/-- Embedding of `Analytics._get_cached_project_views` (lines 32-45): on a memo hit return
the cached count; on a miss read `project_views.get(name, 0)` through
`_get_analytics_state` and memoize it. When the memo table is full
(`maxsize=100`) the least-recently-used entry is evicted; recency reordering
on hits affects only which entry is evicted, never any cached value, so the
table is kept in insertion order with the oldest entry dropped on overflow. -/
def getCachedProjectViews (s : SessionState) (project_name : String) :
    Nat × SessionState :=
  match pyGet? s.cache project_name with
  | some v => (v, s)
  | none =>
    let a := getAnalyticsState s.analytics
    let v := pyGetD a.project_views project_name
    let c0 := if s.cache.length ≥ 100 then s.cache.drop 1 else s.cache
    (v, { analytics := some a, cache := c0 ++ [(project_name, v)] })

/-- Embedding of `Analytics.track_project_view` (lines 47-62): insert the key with value 0
if absent, increment it, then `cache_clear()` the whole memo table. -/
def track_project_view (s : SessionState) (project_name : String) :
    SessionState :=
  let a := getAnalyticsState s.analytics
  let pv0 :=
    if (pyGet? a.project_views project_name).isNone then
      pySet a.project_views project_name 0
    else a.project_views
  let pv := pySet pv0 project_name (pyGetD pv0 project_name + 1)
  { analytics := some { a with project_views := pv }, cache := [] }

/-- Embedding of `Analytics.track_contact_submission` (lines 64-69); `now_iso` stands for
`datetime.now().isoformat()`. -/
def track_contact_submission (s : SessionState) (now_iso : String) :
    SessionState :=
  let a := getAnalyticsState s.analytics
  { s with analytics := some { a with
      contact_submissions := a.contact_submissions + 1
      last_interaction := some now_iso } }

/-- Embedding of `Analytics.track_visit` (lines 71-75). -/
def track_visit (s : SessionState) : SessionState :=
  let a := getAnalyticsState s.analytics
  { s with analytics := some { a with total_visits := a.total_visits + 1 } }

/-- Embedding of `Analytics.get_project_views` (lines 77-88): delegates to the cached
reader. -/
def get_project_views (s : SessionState) (project_name : String) :
    Nat × SessionState :=
  getCachedProjectViews s project_name

/-- Embedding of `Analytics.get_total_contact_submissions` (lines 90-99). -/
def get_total_contact_submissions (s : SessionState) : Nat × SessionState :=
  let a := getAnalyticsState s.analytics
  (a.contact_submissions, { s with analytics := some a })

/-- Embedding of `Analytics.get_last_interaction` (lines 101-110). -/
def get_last_interaction (s : SessionState) : Option String × SessionState :=
  let a := getAnalyticsState s.analytics
  (a.last_interaction, { s with analytics := some a })

/-- Embedding of `Analytics.get_total_visits` (lines 112-121). -/
def get_total_visits (s : SessionState) : Nat × SessionState :=
  let a := getAnalyticsState s.analytics
  (a.total_visits, { s with analytics := some a })

/-- One step of Python's `max(items, key=lambda x: x[1], default=...)`:
the running maximum is replaced only on a strictly greater key, so the
first-encountered maximum wins on ties. -/
def maxStep (best kv : String × Nat) : String × Nat :=
  if best.2 < kv.2 then kv else best

/-- Embedding of `max(analytics["project_views"].items(), key=lambda x: x[1],
default=("None", 0))` from line 136-138 of `analytics.py`. -/
def pyMaxByCount : List (String × Nat) → String × Nat
  | [] => ("None", 0)
  | x :: xs => xs.foldl maxStep x

/-- The dict returned by `Analytics.get_analytics_summary` (lines 132-140). -/
structure SummaryDict where
  total_visits : Nat
  total_contact_submissions : Nat
  total_project_views : Nat
  most_viewed_project : String × Nat
  last_interaction : Option String
  deriving DecidableEq, Repr

/-- Embedding of `Analytics.get_analytics_summary` (lines 123-140). -/
def get_analytics_summary (s : SessionState) : SummaryDict × SessionState :=
  let a := getAnalyticsState s.analytics
  ({ total_visits := a.total_visits
     total_contact_submissions := a.contact_submissions
     total_project_views := sumValues a.project_views
     most_viewed_project := pyMaxByCount a.project_views
     last_interaction := a.last_interaction },
   { s with analytics := some a })

/-! ## Email configuration and dispatch (`src/config.py`) -/

/-- A Python exception escaping or caught inside `config.py`. -/
inductive PyError where
  | nameError (msg : String)
  | valueError (msg : String)
  | smtpError (msg : String)
  deriving DecidableEq, Repr

/-- Embedding of `str(e)` for the exceptions modelled here. -/
def errMsg : PyError → String
  | .nameError m => m
  | .valueError m => m
  | .smtpError m => m

/-- The four environment variables `config.py` reads. `none` models an unset
variable; `load_dotenv()` (line 38) merges a `.env` file into the process
environment, so this record models the environment after that merge. -/
structure EmailEnv where
  EMAIL_HOST : Option String
  EMAIL_PORT : Option String
  EMAIL_USERNAME : Option String
  EMAIL_PASSWORD : Option String
  deriving DecidableEq, Repr

/-- Embedding of `os.getenv(var)` restricted to the four names `config.py` uses. -/
def getenv (env : EmailEnv) : String → Option String
  | "EMAIL_HOST" => env.EMAIL_HOST
  | "EMAIL_PORT" => env.EMAIL_PORT
  | "EMAIL_USERNAME" => env.EMAIL_USERNAME
  | "EMAIL_PASSWORD" => env.EMAIL_PASSWORD
  | _ => none

/-- Python truthiness of an `os.getenv` result: `None` and the empty string
are falsy, every other string is truthy (line 48 uses `not os.getenv(var)`). -/
def truthy : Option String → Bool
  | none => false
  | some s => s != ""

/-- The dict built by `Config.load_email_config` (lines 41-46). -/
structure EmailConfig where
  host : String
  port : Int
  username : Option String
  password : Option String
  deriving DecidableEq, Repr

/-- Line 39 of `config.py`: all four variables are listed as required. -/
def required_vars : List String :=
  ["EMAIL_HOST", "EMAIL_PORT", "EMAIL_USERNAME", "EMAIL_PASSWORD"]

/-- Embedding of `Config.load_email_config` (lines 27-52). The config dict (with the
`int(...)` port conversion) is built BEFORE the missing-variable check, and
the check at line 48 treats every unset or empty variable — including
`EMAIL_HOST` and `EMAIL_PORT`, despite their defaults at lines 42-43 — as
missing and raises `ValueError` naming them. -/
def load_email_config (env : EmailEnv) : Except PyError EmailConfig :=
  match pyInt? ((getenv env "EMAIL_PORT").getD "587") with
  | none => .error (.valueError "invalid literal for int() with base 10")
  | some port =>
    let config : EmailConfig :=
      { host := (getenv env "EMAIL_HOST").getD "smtp.gmail.com"
        port := port
        username := getenv env "EMAIL_USERNAME"
        password := getenv env "EMAIL_PASSWORD" }
    let missing_vars := required_vars.filter (fun v => !(truthy (getenv env v)))
    if missing_vars.isEmpty then .ok config
    else .error (.valueError
      ("Missing required environment variables: "
        ++ String.intercalate ", " missing_vars))

/-- Embedding of `Config.CONTACT_EMAIL` (line 24). -/
def CONTACT_EMAIL : String := "dim.pashev@gmail.com"

/-- Embedding of `Config.EMAIL_RATE_LIMIT` (line 25): maximum emails per hour. -/
def EMAIL_RATE_LIMIT : Nat := 5

/-- The message assembled at lines 85-91 of `config.py`. -/
structure MIMEMessage where
  from_email : String
  to_addr : String
  subject : String
  body : String
  deriving DecidableEq, Repr

/-- The `current_hour` / `email_count` slots of `st.session_state` used by
`Config.send_email`; `none` models a slot not yet written. -/
structure EmailSession where
  current_hour : Option Int
  email_count : Option Nat
  deriving DecidableEq, Repr

/-- Observable outcome of one `Config.send_email` call: the returned boolean
or the propagated exception, the session state afterwards, whether the
mail transport was contacted, and the `st.error` messages shown. -/
structure SendOutcome where
  result : Except PyError Bool
  session : EmailSession
  transportContacted : Bool
  errorsShown : List String

/-- The blocking `smtplib` block of lines 93-96 (connect, STARTTLS, login,
send) abstracted as one fallible call on the config and message. -/
def Transport : Type :=
  EmailConfig → MIMEMessage → Except PyError Unit

/-- Embedding of `Config.send_email` (lines 54-104) exactly as written. Line 71 executes,
then line 72 evaluates `datetime.now().hour` — but `config.py` never imports
`datetime` (its imports are `os`, `typing`, `dataclasses`, `email.mime`,
`smtplib`, `streamlit` and `dotenv`), so every call raises a NameError
saying that name datetime is not defined, before the rate-limit check and
before the `try` block, leaving the session untouched and the transport
uncontacted. The remainder of the function, under the evident intent that
`datetime` is imported, is `send_email_fixed` below. -/
def send_email (st : EmailSession) (now_hour : Int) (env : EmailEnv)
    (transport : Transport) (subject body from_email : String) : SendOutcome :=
  let _hour : Int := st.current_hour.getD 0
  { result := .error (.nameError "name \x27datetime\x27 is not defined")
    session := st
    transportContacted := false
    errorsShown := [] }

/-- Lines 70-104 of `Config.send_email` as they would execute with the
missing `from datetime import datetime` in place — the behaviour the module's
own tests (`test_send_email_success`, `test_send_email_rate_limit`) assert.
`now_hour` stands for `datetime.now().hour`. -/
def send_email_fixed (st : EmailSession) (now_hour : Int) (env : EmailEnv)
    (transport : Transport) (subject body from_email : String) : SendOutcome :=
  let hour : Int := st.current_hour.getD 0
  let current_hour : Int := now_hour
  let st :=
    if hour != current_hour then
      { current_hour := some current_hour, email_count := some 0 }
    else st
  if st.email_count.getD 0 ≥ EMAIL_RATE_LIMIT then
    { result := .ok false, session := st, transportContacted := false
      errorsShown := ["Email rate limit exceeded. Please try again later."] }
  else
    match load_email_config env with
    | .error e =>
      { result := .ok false, session := st, transportContacted := false
        errorsShown := ["Failed to send email: " ++ errMsg e] }
    | .ok email_config =>
      let msg : MIMEMessage :=
        { from_email := from_email
          to_addr := CONTACT_EMAIL
          subject := "Portfolio Contact: " ++ subject
          body := "From: " ++ from_email ++ "\n\n" ++ body }
      match transport email_config msg with
      | .error e =>
        { result := .ok false, session := st, transportContacted := true
          errorsShown := ["Failed to send email: " ++ errMsg e] }
      | .ok _ =>
        { result := .ok true
          session := { st with email_count := some (st.email_count.getD 0 + 1) }
          transportContacted := true
          errorsShown := [] }

/-! ## Chatbot (`src/chat.py`) over the portfolio data (`src/data.py`) -/

/-- One value of `PortfolioData.get_skills_data()`. `experience_years` is
stored as the string Python interpolates into the answer (`2` renders as
`"2"`, `1.5` as `"1.5"`). -/
structure SkillInfo where
  proficiency : Nat
  category : String
  experience_years : String
  deriving DecidableEq, Repr

/-- Embedding of `PortfolioData.get_skills_data()` (`data.py` lines 10-67), in dict
insertion order. -/
def skills_data : List (String × SkillInfo) :=
  [("Python", ⟨90, "Languages", "2"⟩),
   ("Django", ⟨85, "Frameworks", "1.5"⟩),
   ("ReactJS", ⟨75, "Frontend", "1"⟩),
   ("JavaScript", ⟨70, "Languages", "1"⟩),
   ("CSS", ⟨75, "Frontend", "1.5"⟩),
   ("HTML", ⟨80, "Frontend", "1.5"⟩),
   ("Linux", ⟨70, "Tools", "2"⟩),
   ("API Development", ⟨80, "Backend", "1.5"⟩),
   ("PostgreSQL", ⟨75, "Databases", "1"⟩),
   ("Version Control", ⟨85, "Tools", "2"⟩),
   ("Bash", ⟨70, "Tools", "1"⟩),
   ("Database Management", ⟨80, "Databases", "1.5"⟩)]

/-- One entry of `PortfolioData.get_projects_data()`; the optional fields
mirror the `if "..." in project` probes of `chat.py` lines 40-45. -/
structure ProjectInfo where
  name : String
  date : String
  description : String
  tech_stack : Option (List String)
  live_demo : Option String
  github_link : Option String
  deriving DecidableEq, Repr

/-- Embedding of `PortfolioData.get_projects_data()` (`data.py` lines 131-189). -/
def projects_data : List ProjectInfo :=
  [{ name := "Online Shop Django Project"
     date := "09/2024 - 10/2024"
     description := "A comprehensive Django-based online shopping platform with features like custom user models, product and category management, shopping cart, order processing, inventory control, user account management, and PayPal integration."
     tech_stack := some ["Python", "Django", "PostgreSQL", "JavaScript", "Bootstrap"]
     live_demo := some "https://dimipi.pythonanywhere.com/"
     github_link := some "https://github.com/dimipash/ONLINE_SHOP_DJANGO_PROJECT" },
   { name := "SaaS Django Project"
     date := "05/2025 - 05/2025"
     description := "A foundational Software as a Service (SaaS) solution built with Django, featuring user authentication, subscription management, and custom commands."
     tech_stack := some ["Python", "Django", "PostgreSQL", "Docker"]
     live_demo := none
     github_link := some "https://github.com/dimipash/SAAS" },
   { name := "Python AI Projects"
     date := "2024 - Present"
     description := "A collection of small to medium-sized projects focused on exploring various applications of Artificial Intelligence (AI) using Python and related technologies. Projects include AI research agents, voice assistants, coding mentors, web scrapers, and more."
     tech_stack := some ["Python", "LangChain", "Flask", "Streamlit", "FastAPI", "MongoDB"]
     live_demo := none
     github_link := some "https://github.com/dimipash/AI-PYTHON-PROJECTS" },
   { name := "AI Web Scraper"
     date := "08/2024 - 08/2024"
     description := "An intelligent web scraper that uses AI to extract data from websites. Built with Streamlit and Selenium."
     tech_stack := some ["Python", "Streamlit", "Selenium", "LLM"]
     live_demo := none
     github_link := some "https://github.com/dimipash/AI_WEB_SCRAPER" },
   { name := "Llama3.1 Flask Chatbot"
     date := "08/2024 - 08/2024"
     description := "A chatbot powered by Llama3.1, built with Flask. The chatbot can engage in natural conversations and answer user queries."
     tech_stack := some ["Python", "Flask", "Llama3.1"]
     live_demo := none
     github_link := some "https://github.com/dimipash/LLAMA3.1_FLASK_CHATBOT" }]

/-- Embedding of `PortfolioData.get_soft_skills()` (`data.py` lines 115-129). -/
def soft_skills : List String :=
  ["Communication", "Team Player", "Problem-Solving", "Adaptability",
   "Attention To Detail"]

/-- The three skill questions inserted per skill by
`Chatbot._build_knowledge_base` (`chat.py` lines 29-32). -/
def skillEntries (p : String × SkillInfo) : List (String × String) :=
  let skill := p.1
  let prof := p.2.proficiency
  let cat := p.2.category
  let years := p.2.experience_years
  [(s!"What is your proficiency in {skill}?",
    s!"My proficiency in {skill} is {prof}%."),
   (s!"What category does {skill} belong to?",
    s!"{skill} belongs to the {cat} category."),
   (s!"How many years of experience do you have in {skill}?",
    s!"I have {years} years of experience in {skill}.")]

/-- The per-project questions inserted by `Chatbot._build_knowledge_base`
(`chat.py` lines 38-45). -/
def projectEntries (pr : ProjectInfo) : List (String × String) :=
  let name := pr.name
  [(s!"Tell me about the {name} project.", pr.description)]
  ++ (match pr.tech_stack with
      | some ts =>
        let techs := String.intercalate ", " ts
        [(s!"What technologies were used in the {name} project?",
          s!"The technologies used in the {name} project are: {techs}.")]
      | none => [])
  ++ (match pr.live_demo with
      | some url =>
        [(s!"Is there a live demo for the {name} project?",
          s!"Yes, you can view the live demo here: {url}")]
      | none => [])
  ++ (match pr.github_link with
      | some url =>
        [(s!"Is there a GitHub link for the {name} project?",
          s!"Yes, you can view the source code here: {url}")]
      | none => [])

/-- Embedding of `Chatbot._build_knowledge_base` (`chat.py` lines 19-47): skills first,
then the soft-skills question, then the projects, in insertion order. -/
def knowledge_base : List (String × String) :=
  (skills_data.map skillEntries).flatten
  ++ [("What are your soft skills?",
       "My soft skills are: " ++ String.intercalate ", " soft_skills ++ ".")]
  ++ (projects_data.map projectEntries).flatten

/-- The greeting reply at line 61 of `chat.py`. -/
def helloReply : String := "Hello there! How can I help you today?"

/-- The fallback reply at line 65 of `chat.py`. -/
def defaultReply : String :=
  "I\x27m sorry, I don\x27t have an answer to that question."

/-- Embedding of `Chatbot._get_answer` (`chat.py` lines 49-65): strip the input, special-
case the greeting case-insensitively, then look the stripped input up in
`self.knowledge_base` by exact string equality. -/
def getAnswer (kb : List (String × String)) (question : String) : String :=
  let question := pyStrip question
  if pyLower question == "hello" then helloReply
  else
    match pyGet? kb question with
    | some a => a
    | none => defaultReply

/-! Association-list (Python dict) lemmas -/

theorem pyGet_pySet {α : Type} (m : List (String × α)) (k p : String) (v : α) :
    pyGet? (pySet m k v) p = if p = k then some v else pyGet? m p := by
  induction m with
  | nil =>
    by_cases h : k = p
    · subst h; simp [pySet, pyGet?]
    · have h2 : ¬p = k := fun hh => h hh.symm
      simp [pySet, pyGet?, h, h2]
  | cons kv rest ih =>
    obtain ⟨k0, v0⟩ := kv
    by_cases h0 : k0 = k
    · subst h0
      by_cases hp : k0 = p
      · subst hp; simp [pySet, pyGet?]
      · have h2 : ¬p = k0 := fun hh => hp hh.symm
        simp [pySet, pyGet?, hp, h2]
    · by_cases hp : k0 = p
      · subst hp
        have h2 : ¬k0 = k := h0
        simp [pySet, pyGet?, h2]
      · simp [pySet, pyGet?, h0, hp, ih]

theorem pyGetD_pySet (m : List (String × Nat)) (k p : String) (v : Nat) :
    pyGetD (pySet m k v) p = if p = k then v else pyGetD m p := by
  unfold pyGetD
  rw [pyGet_pySet]
  by_cases h : p = k <;> simp [h]

theorem pyGet_mem {α : Type} {m : List (String × α)} {key : String} {v : α}
    (h : pyGet? m key = some v) : (key, v) ∈ m := by
  induction m with
  | nil => simp [pyGet?] at h
  | cons kv rest ih =>
    obtain ⟨k0, v0⟩ := kv
    by_cases h0 : k0 = key
    · subst h0
      simp [pyGet?] at h
      subst h
      exact List.mem_cons_self _ _
    · simp [pyGet?, h0] at h
      exact List.mem_cons_of_mem _ (ih h)

/-! The effect of one tracked project view on the authoritative map -/

theorem projectViewsOf_track (s : SessionState) (n : String) :
    projectViewsOf (track_project_view s n)
      = pySet (if (pyGet? (projectViewsOf s) n).isNone then
                 pySet (projectViewsOf s) n 0
               else projectViewsOf s) n
          (pyGetD (if (pyGet? (projectViewsOf s) n).isNone then
                     pySet (projectViewsOf s) n 0
                   else projectViewsOf s) n + 1) := rfl

theorem pyGetD_track (s : SessionState) (n p : String) :
    pyGetD (projectViewsOf (track_project_view s n)) p
      = if p = n then pyGetD (projectViewsOf s) p + 1
        else pyGetD (projectViewsOf s) p := by
  rw [projectViewsOf_track]
  cases hmem : pyGet? (projectViewsOf s) n with
  | none =>
    have h0 : pyGetD (projectViewsOf s) n = 0 := by simp [pyGetD, hmem]
    have hA : pyGetD (pySet (projectViewsOf s) n 0) n = 0 := by
      rw [pyGetD_pySet]; simp
    simp only [hmem, Option.isNone_none, if_true, hA]
    rw [pyGetD_pySet]
    by_cases hp : p = n
    · subst hp; simp [h0]
    · rw [if_neg hp, if_neg hp, pyGetD_pySet, if_neg hp]
  | some w =>
    simp only [hmem, Option.isNone_some, if_false]
    rw [pyGetD_pySet]
    by_cases hp : p = n <;> simp [hp]

theorem cache_track (s : SessionState) (n : String) :
    (track_project_view s n).cache = [] := rfl

/-! Claim C6: sequences of tracked views -/

/-- A sequence of `track_project_view` calls, applied left to right. -/
def applyTrackViews (names : List String) (s : SessionState) : SessionState :=
  names.foldl track_project_view s

theorem cache_applyTrackViews (names : List String) (s : SessionState)
    (h : s.cache = []) : (applyTrackViews names s).cache = [] := by
  induction names generalizing s with
  | nil => exact h
  | cons n ns ih => exact ih (track_project_view s n) (cache_track s n)

theorem pyGetD_applyTrackViews (names : List String) (s : SessionState)
    (p : String) :
    pyGetD (projectViewsOf (applyTrackViews names s)) p
      = names.count p + pyGetD (projectViewsOf s) p := by
  induction names generalizing s with
  | nil => simp [applyTrackViews]
  | cons n ns ih =>
    have hstep : applyTrackViews (n :: ns) s
        = applyTrackViews ns (track_project_view s n) := rfl
    rw [hstep, ih, pyGetD_track, List.count_cons]
    by_cases hp : p = n
    · subst hp
      simp only [if_pos rfl, beq_self_eq_true, if_true]
      omega
    · have hb : (n == p) = false :=
        beq_eq_false_iff_ne.mpr fun hh => hp hh.symm
      simp only [if_neg hp, hb, Bool.false_eq_true, if_false]
      omega

/-- Claim C6: starting from a fresh session, after any sequence of
`track_project_view` calls, `get_project_views(p)` returns exactly the number
of calls in the sequence whose argument equals `p` (string equality) — and
hence 0 for any name never tracked. -/
theorem get_project_views_counts_calls (names : List String) (p : String) :
    (get_project_views (applyTrackViews names freshSession) p).1
      = names.count p := by
  have hc : (applyTrackViews names freshSession).cache = [] :=
    cache_applyTrackViews names freshSession rfl
  have hv : pyGetD (projectViewsOf (applyTrackViews names freshSession)) p
      = names.count p := by
    rw [pyGetD_applyTrackViews]
    simp [projectViewsOf, freshSession, getAnalyticsState, initialAnalytics,
      pyGetD, pyGet?]
  unfold get_project_views getCachedProjectViews
  rw [hc]
  simpa [pyGet?, projectViewsOf] using hv

/-! Claim C10: the lru_cache layer is observationally transparent -/

/-- One UI-visible operation on the project-view counter: a write
(`track_project_view`) or a cached read (`get_project_views`). -/
inductive ViewOp where
  | track (name : String)
  | read (name : String)

/-- State evolution of one `ViewOp` (the read mutates only the memo table). -/
def viewStep (s : SessionState) : ViewOp → SessionState
  | .track n => track_project_view s n
  | .read n => (get_project_views s n).2

/-- An interleaving of writes and cached reads, applied left to right. -/
def runViewOps (ops : List ViewOp) (s : SessionState) : SessionState :=
  ops.foldl viewStep s

/-- Every memo-table entry agrees with the authoritative map. -/
def cacheConsistent (s : SessionState) : Prop :=
  ∀ kv ∈ s.cache, kv.2 = pyGetD (projectViewsOf s) kv.1

theorem cacheConsistent_fresh : cacheConsistent freshSession := by
  intro kv hkv
  simp [freshSession] at hkv

theorem get_project_views_fst (s : SessionState) (p : String)
    (h : cacheConsistent s) :
    (get_project_views s p).1 = pyGetD (projectViewsOf s) p := by
  unfold get_project_views getCachedProjectViews
  cases hm : pyGet? s.cache p with
  | none => simp [projectViewsOf]
  | some v => simpa using h (p, v) (pyGet_mem hm)

theorem cacheConsistent_viewStep (s : SessionState) (op : ViewOp)
    (h : cacheConsistent s) : cacheConsistent (viewStep s op) := by
  cases op with
  | track n =>
    intro kv hkv
    simp only [viewStep, cache_track] at hkv
    simp at hkv
  | read n =>
    simp only [viewStep, get_project_views, getCachedProjectViews]
    cases hm : pyGet? s.cache n with
    | some v => exact h
    | none =>
      intro kv hkv
      simp only [List.mem_append, List.mem_singleton] at hkv
      have hpv : projectViewsOf
          { analytics := some (getAnalyticsState s.analytics),
            cache := (if s.cache.length ≥ 100 then s.cache.drop 1 else s.cache)
              ++ [(n, pyGetD (getAnalyticsState s.analytics).project_views n)] }
          = projectViewsOf s := rfl
      rcases hkv with hold | hnew
      · have hmem : kv ∈ s.cache := by
          by_cases hlen : s.cache.length ≥ 100
          · exact List.drop_subset 1 s.cache (by simpa [hlen] using hold)
          · simpa [hlen] using hold
        rw [hpv]
        exact h kv hmem
      · subst hnew
        rw [hpv]
        rfl

theorem cacheConsistent_runViewOps (ops : List ViewOp) (s : SessionState)
    (h : cacheConsistent s) : cacheConsistent (runViewOps ops s) := by
  induction ops generalizing s with
  | nil => exact h
  | cons op rest ih =>
    exact ih (viewStep s op) (cacheConsistent_viewStep s op h)

/-- Claim C10: after every interleaving of `track_project_view` and
`get_project_views` calls within one session, the cached read
`get_project_views(p)` returns the same value as the direct read
`project_views.get(p, 0)` of the authoritative map — `track_project_view`
clears the whole memo table on every write, so stale entries never survive
a write. -/
theorem cached_read_equals_direct_read (ops : List ViewOp) (p : String) :
    (get_project_views (runViewOps ops freshSession) p).1
      = pyGetD (projectViewsOf (runViewOps ops freshSession)) p :=
  get_project_views_fst _ p
    (cacheConsistent_runViewOps ops freshSession cacheConsistent_fresh)

/-! Claim C8: counters never decrease, visits count exactly -/

/-- The full operation alphabet of the analytics store (writes and reads). -/
inductive AnalyticsOp where
  | visit
  | projectView (name : String)
  | contactSubmission (now_iso : String)
  | readProjectViews (name : String)
  | readContactSubmissions
  | readLastInteraction
  | readTotalVisits
  | readSummary

/-- State evolution of one analytics operation (read results discarded). -/
def analyticsStep (s : SessionState) : AnalyticsOp → SessionState
  | .visit => track_visit s
  | .projectView n => track_project_view s n
  | .contactSubmission t => track_contact_submission s t
  | .readProjectViews n => (get_project_views s n).2
  | .readContactSubmissions => (get_total_contact_submissions s).2
  | .readLastInteraction => (get_last_interaction s).2
  | .readTotalVisits => (get_total_visits s).2
  | .readSummary => (get_analytics_summary s).2

/-- Iterated `track_visit`. -/
def applyVisits : Nat → SessionState → SessionState
  | 0, s => s
  | k + 1, s => applyVisits k (track_visit s)

theorem total_visits_applyVisits (k : Nat) (s : SessionState) :
    (getAnalyticsState (applyVisits k s).analytics).total_visits
      = k + (getAnalyticsState s.analytics).total_visits := by
  induction k generalizing s with
  | zero => simp [applyVisits]
  | succ k ih =>
    have hstep : (getAnalyticsState (track_visit s).analytics).total_visits
        = (getAnalyticsState s.analytics).total_visits + 1 := rfl
    rw [applyVisits, ih, hstep]
    omega

/-- Claim C8: every analytics counter (`total_visits`, each entry of
`project_views`, `contact_submissions`) is non-decreasing across every
operation of the store, and `track_visit` called `k` times from a fresh
session yields `total_visits = k` with no deduplication. -/
theorem counters_monotone_and_visits_exact :
    (∀ (s : SessionState) (op : AnalyticsOp),
        (getAnalyticsState s.analytics).total_visits
            ≤ (getAnalyticsState (analyticsStep s op).analytics).total_visits
        ∧ (getAnalyticsState s.analytics).contact_submissions
            ≤ (getAnalyticsState (analyticsStep s op).analytics).contact_submissions
        ∧ ∀ p, pyGetD (projectViewsOf s) p
            ≤ pyGetD (projectViewsOf (analyticsStep s op)) p)
    ∧ ∀ k, (getAnalyticsState (applyVisits k freshSession).analytics).total_visits
        = k := by
  constructor
  · intro s op
    cases op with
    | visit => exact ⟨Nat.le_succ _, le_refl _, fun p => le_refl _⟩
    | projectView n =>
      refine ⟨le_refl _, le_refl _, fun p => ?_⟩
      simp only [analyticsStep]
      rw [pyGetD_track]
      by_cases hp : p = n <;> simp [hp]
    | contactSubmission t => exact ⟨le_refl _, Nat.le_succ _, fun p => le_refl _⟩
    | readProjectViews n =>
      simp only [analyticsStep, get_project_views, getCachedProjectViews]
      cases hm : pyGet? s.cache n with
      | some v => exact ⟨le_refl _, le_refl _, fun p => le_refl _⟩
      | none => exact ⟨le_refl _, le_refl _, fun p => le_refl _⟩
    | readContactSubmissions => exact ⟨le_refl _, le_refl _, fun p => le_refl _⟩
    | readLastInteraction => exact ⟨le_refl _, le_refl _, fun p => le_refl _⟩
    | readTotalVisits => exact ⟨le_refl _, le_refl _, fun p => le_refl _⟩
    | readSummary => exact ⟨le_refl _, le_refl _, fun p => le_refl _⟩
  · intro k
    rw [total_visits_applyVisits]
    rfl

/-! Claim C7: the analytics summary -/

theorem foldl_maxStep_mem (xs : List (String × Nat)) (acc : String × Nat) :
    xs.foldl maxStep acc = acc ∨ xs.foldl maxStep acc ∈ xs := by
  induction xs generalizing acc with
  | nil => exact Or.inl rfl
  | cons x xs ih =>
    rw [List.foldl_cons]
    rcases ih (maxStep acc x) with h | h
    · rw [h]
      unfold maxStep
      by_cases hlt : acc.2 < x.2
      · exact Or.inr (by simp [hlt])
      · exact Or.inl (by simp [hlt])
    · exact Or.inr (List.mem_cons_of_mem _ h)

theorem foldl_maxStep_ge_acc (xs : List (String × Nat)) (acc : String × Nat) :
    acc.2 ≤ (xs.foldl maxStep acc).2 := by
  induction xs generalizing acc with
  | nil => exact le_refl _
  | cons x xs ih =>
    rw [List.foldl_cons]
    refine le_trans ?_ (ih (maxStep acc x))
    unfold maxStep
    by_cases hlt : acc.2 < x.2
    · simp [hlt]; omega
    · simp [hlt]

theorem foldl_maxStep_ge_mem (xs : List (String × Nat)) (acc : String × Nat) :
    ∀ kv ∈ xs, kv.2 ≤ (xs.foldl maxStep acc).2 := by
  induction xs generalizing acc with
  | nil => intro kv hkv; simp at hkv
  | cons x xs ih =>
    intro kv hkv
    rw [List.foldl_cons]
    rcases List.mem_cons.mp hkv with hx | hxs
    · subst hx
      refine le_trans ?_ (foldl_maxStep_ge_acc xs (maxStep acc kv))
      unfold maxStep
      by_cases hlt : acc.2 < kv.2
      · simp [hlt]
      · simp [hlt]; omega
    · exact ih (maxStep acc x) kv hxs

theorem pyMaxByCount_mem (m : List (String × Nat)) (h : m ≠ []) :
    pyMaxByCount m ∈ m := by
  cases m with
  | nil => exact absurd rfl h
  | cons x xs =>
    rw [pyMaxByCount]
    rcases foldl_maxStep_mem xs x with heq | hmem
    · rw [heq]; exact List.mem_cons_self _ _
    · exact List.mem_cons_of_mem _ hmem

theorem pyMaxByCount_ge (m : List (String × Nat)) :
    ∀ kv ∈ m, kv.2 ≤ (pyMaxByCount m).2 := by
  cases m with
  | nil => intro kv hkv; simp at hkv
  | cons x xs =>
    intro kv hkv
    rw [pyMaxByCount]
    rcases List.mem_cons.mp hkv with hx | hxs
    · subst hx; exact foldl_maxStep_ge_acc xs kv
    · exact foldl_maxStep_ge_mem xs x kv hxs

/-- Claim C7: for every session state, `get_analytics_summary` reports as
`most_viewed_project` a tracked (name, count) pair of maximal count, or
`("None", 0)` when nothing has been tracked, and reports
`total_project_views` as the sum of all per-project counts. -/
theorem get_analytics_summary_spec (s : SessionState) :
    ((getAnalyticsState s.analytics).project_views = [] →
        (get_analytics_summary s).1.most_viewed_project = ("None", 0))
    ∧ ((getAnalyticsState s.analytics).project_views ≠ [] →
        (get_analytics_summary s).1.most_viewed_project
            ∈ (getAnalyticsState s.analytics).project_views
        ∧ ∀ kv ∈ (getAnalyticsState s.analytics).project_views,
            kv.2 ≤ (get_analytics_summary s).1.most_viewed_project.2)
    ∧ (get_analytics_summary s).1.total_project_views
        = sumValues (getAnalyticsState s.analytics).project_views := by
  refine ⟨fun h => ?_, fun h => ⟨?_, ?_⟩, rfl⟩
  · show pyMaxByCount (getAnalyticsState s.analytics).project_views = ("None", 0)
    rw [h, pyMaxByCount]
  · exact pyMaxByCount_mem _ h
  · exact pyMaxByCount_ge _

/-- The spec scenario: a session that tracked "Alpha" twice and "Beta" five
times. -/
def sessionAB : SessionState :=
  { analytics := some
      { project_views := [("Alpha", 2), ("Beta", 5)]
        contact_submissions := 0
        last_interaction := none
        total_visits := 1 }
    cache := [] }

/-- Witness for C7 at the Alpha/Beta scenario of the spec. -/
theorem get_analytics_summary_spec_witness :
    ((getAnalyticsState sessionAB.analytics).project_views ≠ []
      ∧ (get_analytics_summary sessionAB).1.most_viewed_project
          ∈ (getAnalyticsState sessionAB.analytics).project_views
      ∧ ∀ kv ∈ (getAnalyticsState sessionAB.analytics).project_views,
          kv.2 ≤ (get_analytics_summary sessionAB).1.most_viewed_project.2)
    ∧ (get_analytics_summary sessionAB).1.most_viewed_project = ("Beta", 5)
    ∧ (get_analytics_summary sessionAB).1.total_project_views = 7 :=
  ⟨⟨by decide, (get_analytics_summary_spec sessionAB).2.1 (by decide)⟩,
   by decide, by decide⟩

/-! Claims C1-C5: email configuration and dispatch -/

/-- An environment with all four variables set. -/
def envFull : EmailEnv :=
  { EMAIL_HOST := some "smtp.gmail.com", EMAIL_PORT := some "587"
    EMAIL_USERNAME := some "user@example.com", EMAIL_PASSWORD := some "secret" }

/-- An environment with `EMAIL_USERNAME` and `EMAIL_PASSWORD` both unset. -/
def envMissingCreds : EmailEnv :=
  { EMAIL_HOST := some "smtp.gmail.com", EMAIL_PORT := some "587"
    EMAIL_USERNAME := none, EMAIL_PASSWORD := none }

/-- An environment with only `EMAIL_USERNAME` and `EMAIL_PASSWORD` set. -/
def envOnlyCreds : EmailEnv :=
  { EMAIL_HOST := none, EMAIL_PORT := none
    EMAIL_USERNAME := some "user@example.com", EMAIL_PASSWORD := some "secret" }

/-- A transport on which every SMTP call succeeds. -/
def transportOK : Transport := fun _ _ => .ok ()

/-- A transport on which the SMTP block raises an authentication error. -/
def transportFail : Transport :=
  fun _ _ => .error (.smtpError "SMTPAuthenticationError")

/-- Sequential `send_email_fixed` calls within one hour window, recording
each call's returned result and whether it contacted the transport. -/
def runFixedSends : EmailSession → Nat → List (Except PyError Bool × Bool)
  | _, 0 => []
  | st, n + 1 =>
    let o := send_email_fixed st 10 envFull transportOK "Hi" "Hello" "alice@example.com"
    (o.result, o.transportContacted) :: runFixedSends o.session n

/-- Claim C1 (code bug): with `email_count` already at the limit in the
current window, `send_email` as written does not return failure — it raises
a NameError at line 72 (missing datetime import) before the rate-limit check,
though it does leave the transport uncontacted. Under the evident intent
(`send_email_fixed`), six sequential sends in one window yield exactly five
successes and one rejection, the sixth leaving the transport uncontacted. -/
theorem rate_limit_code_bug :
    (send_email { current_hour := some 10, email_count := some EMAIL_RATE_LIMIT }
        10 envFull transportOK "Hi" "Hello" "alice@example.com").result
      = Except.error (PyError.nameError "name \x27datetime\x27 is not defined")
    ∧ (send_email { current_hour := some 10, email_count := some EMAIL_RATE_LIMIT }
        10 envFull transportOK "Hi" "Hello" "alice@example.com").transportContacted
      = false
    ∧ runFixedSends { current_hour := some 10, email_count := some 0 } 6
      = [(Except.ok true, true), (Except.ok true, true), (Except.ok true, true),
         (Except.ok true, true), (Except.ok true, true), (Except.ok false, false)]
    ∧ (send_email_fixed { current_hour := some 10, email_count := some EMAIL_RATE_LIMIT }
        10 envFull transportOK "Hi" "Hello" "alice@example.com").result
      = Except.ok false :=
  ⟨rfl, rfl, rfl, rfl⟩

/-- Claim C2 (code bug): the claim presumes a call reaching the transport;
as written, `send_email` raises the line-72 NameError before the `try` block
on every call, so the transport is never contacted and no boolean is
returned. Under the evident intent, a transport failure returns `False`,
leaves `email_count` unchanged, and surfaces the error message. -/
theorem transport_failure_code_bug :
    (send_email { current_hour := some 10, email_count := some 3 }
        10 envFull transportFail "Hi" "Hello" "alice@example.com").result
      = Except.error (PyError.nameError "name \x27datetime\x27 is not defined")
    ∧ (send_email { current_hour := some 10, email_count := some 3 }
        10 envFull transportFail "Hi" "Hello" "alice@example.com").transportContacted
      = false
    ∧ (send_email_fixed { current_hour := some 10, email_count := some 3 }
        10 envFull transportFail "Hi" "Hello" "alice@example.com").result
      = Except.ok false
    ∧ (send_email_fixed { current_hour := some 10, email_count := some 3 }
        10 envFull transportFail "Hi" "Hello" "alice@example.com").session.email_count
      = some 3
    ∧ (send_email_fixed { current_hour := some 10, email_count := some 3 }
        10 envFull transportFail "Hi" "Hello" "alice@example.com").errorsShown
      = ["Failed to send email: SMTPAuthenticationError"] :=
  ⟨rfl, rfl, rfl, rfl, rfl⟩

/-- Claim C3 (code bug): `send_email` does not return a boolean on any call —
the line-72 NameError propagates out of it (there is no enclosing handler),
even on a call that would otherwise succeed, as `send_email_fixed` shows. -/
theorem no_exception_code_bug :
    (send_email { current_hour := none, email_count := none }
        14 envFull transportOK "Hi" "Hello" "alice@example.com").result
      = Except.error (PyError.nameError "name \x27datetime\x27 is not defined")
    ∧ (send_email_fixed { current_hour := none, email_count := none }
        14 envFull transportOK "Hi" "Hello" "alice@example.com").result
      = Except.ok true :=
  ⟨rfl, rfl⟩

/-- Claim C4 (code bug): with `EMAIL_USERNAME` and `EMAIL_PASSWORD` unset,
`send_email` as written raises the line-72 NameError (whose message names
neither variable) instead of returning `False`; no network call is made, but
not for the claimed reason. Under the evident intent, the call returns
`False` before contacting the transport with a message naming both missing
variables. -/
theorem missing_credentials_code_bug :
    (send_email { current_hour := none, email_count := none }
        9 envMissingCreds transportOK "Hi" "Hello" "alice@example.com").result
      = Except.error (PyError.nameError "name \x27datetime\x27 is not defined")
    ∧ (send_email { current_hour := none, email_count := none }
        9 envMissingCreds transportOK "Hi" "Hello" "alice@example.com").transportContacted
      = false
    ∧ (send_email_fixed { current_hour := none, email_count := none }
        9 envMissingCreds transportOK "Hi" "Hello" "alice@example.com").result
      = Except.ok false
    ∧ (send_email_fixed { current_hour := none, email_count := none }
        9 envMissingCreds transportOK "Hi" "Hello" "alice@example.com").transportContacted
      = false
    ∧ (send_email_fixed { current_hour := none, email_count := none }
        9 envMissingCreds transportOK "Hi" "Hello" "alice@example.com").errorsShown
      = ["Failed to send email: Missing required environment variables: EMAIL_USERNAME, EMAIL_PASSWORD"] :=
  ⟨rfl, rfl, rfl, rfl, rfl⟩

/-- Counterexample to claim C5: with only the credentials set,
`load_email_config` does not succeed with the default host and port — it
raises `ValueError` naming `EMAIL_HOST` and `EMAIL_PORT` as missing. -/
theorem load_email_config_defaults_counterexample :
    load_email_config envOnlyCreds
      = Except.error (PyError.valueError
          "Missing required environment variables: EMAIL_HOST, EMAIL_PORT") :=
  rfl

theorem getenv_HOST (env : EmailEnv) :
    getenv env "EMAIL_HOST" = env.EMAIL_HOST := rfl

theorem getenv_PORT (env : EmailEnv) :
    getenv env "EMAIL_PORT" = env.EMAIL_PORT := rfl

theorem getenv_USERNAME (env : EmailEnv) :
    getenv env "EMAIL_USERNAME" = env.EMAIL_USERNAME := rfl

theorem getenv_PASSWORD (env : EmailEnv) :
    getenv env "EMAIL_PASSWORD" = env.EMAIL_PASSWORD := rfl

/-- Claim C5 as amended: `EMAIL_HOST` and `EMAIL_PORT` are required too.
When both are unset while the credentials are set (non-empty),
`load_email_config` raises `ValueError` naming exactly the two unset
variables; the `smtp.gmail.com` / `587` defaults are never returned. -/
theorem load_email_config_requires_host_port (env : EmailEnv)
    (hh : env.EMAIL_HOST = none) (hq : env.EMAIL_PORT = none)
    (hu : truthy env.EMAIL_USERNAME = true)
    (hp : truthy env.EMAIL_PASSWORD = true) :
    load_email_config env
      = Except.error (PyError.valueError
          "Missing required environment variables: EMAIL_HOST, EMAIL_PORT") := by
  have h587 : pyInt? "587" = some 587 := rfl
  unfold load_email_config
  rw [getenv_PORT, hq]
  simp only [Option.getD_none, h587]
  have hnone : truthy none = false := rfl
  have hfil : required_vars.filter (fun v => !(truthy (getenv env v)))
      = ["EMAIL_HOST", "EMAIL_PORT"] := by
    simp [required_vars, List.filter, getenv_HOST, getenv_PORT,
      getenv_USERNAME, getenv_PASSWORD, hh, hq, hu, hp, hnone]
  rw [hfil]
  rfl

/-- Witness for the amended C5 at the concrete credentials-only
environment. -/
theorem load_email_config_requires_host_port_witness :
    envOnlyCreds.EMAIL_HOST = none ∧ envOnlyCreds.EMAIL_PORT = none
    ∧ truthy envOnlyCreds.EMAIL_USERNAME = true
    ∧ truthy envOnlyCreds.EMAIL_PASSWORD = true
    ∧ load_email_config envOnlyCreds
      = Except.error (PyError.valueError
          "Missing required environment variables: EMAIL_HOST, EMAIL_PORT") :=
  ⟨rfl, rfl, by decide, by decide,
   load_email_config_requires_host_port envOnlyCreds rfl rfl
     (by decide) (by decide)⟩

/-! Claim C9: chatbot lookup discipline -/

/-- Counterexample to claim C9 as stated: the input `" hello"` is not equal
to `"hello"` case-insensitively (leading space) and is not a knowledge-base
key, so the claim requires the fallback reply — yet `_get_answer` strips the
input first and returns the greeting. -/
theorem chat_lookup_counterexample :
    getAnswer knowledge_base " hello" = helloReply
    ∧ pyLower " hello" ≠ "hello"
    ∧ pyGet? knowledge_base " hello" = none
    ∧ helloReply ≠ defaultReply := by
  refine ⟨by decide, by decide, by decide, by decide⟩

/-- Claim C9 as amended: `_get_answer` first strips leading and trailing
whitespace; the greeting reply is returned exactly on inputs whose stripped
form equals "hello" case-insensitively, and otherwise the stripped input is
looked up by exact, case-sensitive string equality among the precomputed
keys, with the fixed fallback reply on a miss. -/
theorem chat_lookup_spec (q : String) :
    (pyLower (pyStrip q) = "hello" → getAnswer knowledge_base q = helloReply)
    ∧ (pyLower (pyStrip q) ≠ "hello" →
        getAnswer knowledge_base q
          = (pyGet? knowledge_base (pyStrip q)).getD defaultReply) := by
  constructor
  · intro h
    have hb : (pyLower (pyStrip q) == "hello") = true := beq_iff_eq.mpr h
    simp [getAnswer, hb]
  · intro h
    have hb : (pyLower (pyStrip q) == "hello") = false :=
      beq_eq_false_iff_ne.mpr h
    simp only [getAnswer, hb, Bool.false_eq_true, if_false]
    cases hkb : pyGet? knowledge_base (pyStrip q) <;> simp [hkb]

/-- Witness for the amended C9: the stripped, lowercased form of
`"HELLO "` is the greeting, and an exact knowledge-base key is answered. -/
theorem chat_lookup_spec_witness :
    (pyLower (pyStrip "HELLO ") = "hello"
      ∧ getAnswer knowledge_base "HELLO " = helloReply)
    ∧ (pyLower (pyStrip "What is your proficiency in Python?") ≠ "hello"
      ∧ getAnswer knowledge_base "What is your proficiency in Python?"
          = "My proficiency in Python is 90%.") :=
  ⟨⟨by decide, (chat_lookup_spec "HELLO ").1 (by decide)⟩,
   ⟨by decide, by
      rw [(chat_lookup_spec "What is your proficiency in Python?").2 (by decide)]
      decide⟩⟩

end Portfolio
